import Mathlib

/-!
Shallow embedding of the protocol execution engine of the `oidc-cli`
repository (Go), package `httpclient` and the flow orchestrators in
package `oidc`, together with proofs about its response classification,
token-request construction, device-code polling loop and callback
validation.

Conventions of the embedding:
* Go strings are `String`, Go `int` is `Int`.
* `url.Values` (a multimap used strictly through `Set`, so effectively a
  map with unique keys) is an association list `Params`; `setValue`
  mirrors `url.Values.Set` (replace any existing binding), `getValue`
  mirrors `url.Values.Get`-style lookup.
* `encoding/json` is an external collaborator: a `Response` carries the
  raw body together with `decoded`, the outcome of
  `json.Unmarshal(resp.Body, &map[string]interface{})` (`none` models a
  decode failure).  The Go type assertion `m["k"].(string)` is
  `getString`: it succeeds exactly when the key is present with a string
  value.
* Fallible Go functions returning `(T, error)` become `Except`/sum-like
  inductive results whose constructors mirror the sentinel errors
  (`ErrOAuthError`, `ErrHTTPFailure`, `ErrParsingJSON`) the code wraps.
-/

namespace OidcCli

/-- A decoded JSON value, as produced by `encoding/json` unmarshalling into
`map[string]interface{}`.  Only stringness of leaves is ever inspected by
the embedded code (via Go type assertions), the remaining shapes are kept
as distinct constructors. -/
inductive JValue where
  | str (s : String)
  | num (n : Int)
  | boolean (b : Bool)
  | null
  | composite
  deriving DecidableEq

/-- A decoded JSON object: `map[string]interface{}` with unique keys. -/
abbrev JsonObj := List (String × JValue)

/-- `getString m k` models the Go pattern `v, ok := m[k].(string)`:
`some s` exactly when key `k` is present and holds a JSON string. -/
def getString (m : JsonObj) (k : String) : Option String :=
  match List.find? (fun p => p.1 == k) m with
  | some (_, JValue.str s) => some s
  | _ => none

/-- An HTTP response as seen by the classifier (`httpclient.Response`).
`decoded` is the outcome of unmarshalling `body` into a generic map, the
collaborator-computed view the source code branches on. -/
structure Response where
  statusCode : Int
  body : String
  decoded : Option JsonObj
  deriving DecidableEq

/-- Modelled from the spec: `Response.IsSuccess` is declared in repository
HTTP-client code that is not under `src/`; per spec section 4.3 step 2 the
success range is exactly the 2xx statuses. -/
def Response.IsSuccess (r : Response) : Bool :=
  decide (200 ≤ r.statusCode) && decide (r.statusCode < 300)

/-- The `httpclient.Error` struct: OAuth2 error details attached to a
non-2xx response. -/
structure Error where
  statusCode : Int
  rawBody : String
  errorType : String
  errorDescription : String
  deriving DecidableEq

/-- Result of `ParseTokenResponse` (Go returns `(map, error)`; the error
cases wrap the sentinels `ErrOAuthError` / `ErrHTTPFailure` /
`ErrParsingJSON` and the map is returned alongside when decoding
succeeded). -/
inductive TokenParseResult where
  | success (m : JsonObj)
  | oauthError (m : JsonObj) (e : Error)
  | httpFailure (m : JsonObj) (e : Error)
  | parsingError
  deriving DecidableEq

/-- Embedding of `ParseTokenResponse` (src/unnamed/part_005, lines
222-251): JSON-decode regardless of status, then classify by status and
the presence of a string `error` field. -/
def ParseTokenResponse (resp : Response) : TokenParseResult :=
  match resp.decoded with
  | none => TokenParseResult.parsingError
  | some tokenResp =>
    if resp.IsSuccess then
      TokenParseResult.success tokenResp
    else
      match getString tokenResp "error" with
      | some errStr =>
        TokenParseResult.oauthError tokenResp
          { statusCode := resp.statusCode
            rawBody := resp.body
            errorType := errStr
            errorDescription := (getString tokenResp "error_description").getD "" }
      | none =>
        TokenParseResult.httpFailure tokenResp
          { statusCode := resp.statusCode
            rawBody := resp.body
            errorType := ""
            errorDescription := "" }

/-- `url.Values` as used by the token-request code: every write goes
through `Set`, so the observable content is a key-to-value map. -/
abbrev Params := List (String × String)

/-- `url.Values.Set k v`: replace any existing binding of `k` by `v`. -/
def setValue (ps : Params) (k v : String) : Params :=
  (k, v) :: ps.filter (fun p => p.1 != k)

/-- Lookup of a key in a parameter set (`url.Values.Get`, `some`/`none`
distinguishing presence). -/
def getValue (ps : Params) (k : String) : Option String :=
  (List.find? (fun p => p.1 == k) ps).map Prod.snd

theorem getValue_nil (k : String) : getValue [] k = none := rfl

theorem getValue_setValue_self (ps : Params) (k v : String) :
    getValue (setValue ps k v) k = some v := by
  simp [getValue, setValue]

theorem getValue_filter_ne (ps : Params) (k k' : String) (h : k ≠ k') :
    getValue (ps.filter (fun p => p.1 != k')) k = getValue ps k := by
  induction ps with
  | nil => rfl
  | cons hd tl ih =>
    have h3 : k' ≠ k := fun hx => h hx.symm
    by_cases hhd : hd.1 = k'
    · have h2 : hd.1 ≠ k := fun hx => h (hx ▸ hhd)
      simp [getValue, List.filter_cons, List.find?_cons, beq_iff_eq, bne_iff_ne,
        hhd, h2, h, h3] at ih ⊢
      exact ih
    · by_cases hk : hd.1 = k
      · simp [getValue, List.filter_cons, List.find?_cons, beq_iff_eq, bne_iff_ne,
          hhd, hk, h, h3]
      · simp [getValue, List.filter_cons, List.find?_cons, beq_iff_eq, bne_iff_ne,
          hhd, hk, h, h3] at ih ⊢
        exact ih

theorem getValue_setValue_ne (ps : Params) (k k' v : String) (h : k ≠ k') :
    getValue (setValue ps k' v) k = getValue ps k := by
  have : (k' == k) = false := by
    simp only [beq_eq_false_iff_ne, ne_eq]
    exact fun hx => h hx.symm
  simp only [setValue, getValue, List.find?, this]
  exact getValue_filter_ne ps k k' h

theorem getValue_ite_setValue_ne (ps : Params) (c : Prop) [Decidable c]
    (k k' v : String) (h : k ≠ k') :
    getValue (if c then setValue ps k' v else ps) k = getValue ps k := by
  by_cases hc : c
  · simp [hc, getValue_setValue_ne ps k k' v h]
  · simp [hc]

/-- Modelled from the spec: the `AuthMethod` enum (spec section 3:
`Basic | Post | None`); its declaration is not under `src/`, only the
`switch` over the constants `AuthMethodBasic`, `AuthMethodPost`,
`AuthMethodNone` is. -/
inductive AuthMethod where
  | basic
  | post
  | none
  deriving DecidableEq

/-- `httpclient.TokenRequest`. -/
structure TokenRequest where
  GrantType : String
  ClientID : String
  ClientSecret : String
  AuthMethod : AuthMethod
  Params : Params

/-- `httpclient.TokenExchangeInput`. -/
structure TokenExchangeInput where
  GrantType : String := ""
  Resource : String := ""
  Audience : String := ""
  Scope : String := ""
  RequestedTokenType : String := ""
  SubjectToken : String := ""
  SubjectTokenType : String := ""
  ActorToken : String := ""
  ActorTokenType : String := ""

/-- The standard base64 alphabet of Go `encoding/base64.StdEncoding`. -/
def base64Table : List Char :=
  String.toList "ABCDEFGHIJKLMNOPQRSTUVWXYZabcdefghijklmnopqrstuvwxyz0123456789+/"

def b64Char (n : Nat) : Char := base64Table.getD n 'A'

/-- Standard base64 of a byte sequence (RFC 4648 with `=` padding),
modelling `base64.StdEncoding.EncodeToString`. -/
def base64EncodeBytes : List Nat → String
  | [] => ""
  | [b0] =>
    String.mk [b64Char (b0 / 4), b64Char (b0 % 4 * 16), '=', '=']
  | [b0, b1] =>
    String.mk [b64Char (b0 / 4), b64Char (b0 % 4 * 16 + b1 / 16),
               b64Char (b1 % 16 * 4), '=']
  | b0 :: b1 :: b2 :: rest =>
    String.mk [b64Char (b0 / 4), b64Char (b0 % 4 * 16 + b1 / 16),
               b64Char (b1 % 16 * 4 + b2 / 64), b64Char (b2 % 64)]
      ++ base64EncodeBytes rest

/-- UTF-8 encoding of one character as byte values, modelling the Go
conversion `[]byte(s)` (Go strings hold UTF-8 bytes). -/
def utf8EncodeCharNat (c : Char) : List Nat :=
  let n := c.toNat
  if n < 128 then [n]
  else if n < 2048 then [192 + n / 64, 128 + n % 64]
  else if n < 65536 then [224 + n / 4096, 128 + n / 64 % 64, 128 + n % 64]
  else [240 + n / 262144, 128 + n / 4096 % 64, 128 + n / 64 % 64, 128 + n % 64]

/-- The UTF-8 bytes of a string (`[]byte(s)` in Go). -/
def utf8Bytes (s : String) : List Nat :=
  s.data.flatMap utf8EncodeCharNat

/-- `base64.StdEncoding.EncodeToString([]byte(s))`: base64 over the UTF-8
bytes of `s`. -/
def base64StdEncode (s : String) : String :=
  base64EncodeBytes (utf8Bytes s)

/-- Embedding of `Client.ExecuteTokenRequest` (src/unnamed/part_005, lines
35-66) up to the transport hand-off: it returns the parameter set and
header set passed on to `c.PostForm`.  A Go `nil` params/headers map is
the empty list. -/
def ExecuteTokenRequest (req : TokenRequest) (headers : Params) :
    Params × Params :=
  let params := setValue req.Params "grant_type" req.GrantType
  match req.AuthMethod with
  | AuthMethod.basic =>
    (params,
     setValue headers "Authorization"
       ("Basic " ++ base64StdEncode (req.ClientID ++ ":" ++ req.ClientSecret)))
  | AuthMethod.post =>
    let params := setValue params "client_id" req.ClientID
    let params :=
      if req.ClientSecret ≠ "" then setValue params "client_secret" req.ClientSecret
      else params
    (params, headers)
  | AuthMethod.none =>
    (setValue params "client_id" req.ClientID, headers)

/-- `CreateAuthCodeTokenRequest` (src/unnamed/part_005, lines 120-135). -/
def CreateAuthCodeTokenRequest (clientID clientSecret : String)
    (authMethod : AuthMethod) (code redirectURI codeVerifier : String) :
    TokenRequest :=
  let params := setValue (setValue [] "code" code) "redirect_uri" redirectURI
  let params :=
    if codeVerifier ≠ "" then setValue params "code_verifier" codeVerifier
    else params
  { GrantType := "authorization_code"
    ClientID := clientID
    ClientSecret := clientSecret
    AuthMethod := authMethod
    Params := params }

/-- `CreateRefreshTokenRequest` (src/unnamed/part_005, lines 138-152). -/
def CreateRefreshTokenRequest (clientID clientSecret : String)
    (authMethod : AuthMethod) (refreshToken scope : String) : TokenRequest :=
  let params := setValue [] "refresh_token" refreshToken
  let params := if scope ≠ "" then setValue params "scope" scope else params
  { GrantType := "refresh_token"
    ClientID := clientID
    ClientSecret := clientSecret
    AuthMethod := authMethod
    Params := params }

/-- `CreateClientCredentialsRequest` (src/unnamed/part_005, lines
155-168). -/
def CreateClientCredentialsRequest (clientID clientSecret : String)
    (authMethod : AuthMethod) (scope : String) : TokenRequest :=
  let params := if scope ≠ "" then setValue [] "scope" scope else []
  { GrantType := "client_credentials"
    ClientID := clientID
    ClientSecret := clientSecret
    AuthMethod := authMethod
    Params := params }

/-- `CreateDeviceCodeTokenRequest` (src/unnamed/part_005, lines
171-182). -/
def CreateDeviceCodeTokenRequest (clientID clientSecret : String)
    (authMethod : AuthMethod) (deviceCode : String) : TokenRequest :=
  { GrantType := "urn:ietf:params:oauth:grant-type:device_code"
    ClientID := clientID
    ClientSecret := clientSecret
    AuthMethod := authMethod
    Params := setValue [] "device_code" deviceCode }

/-- `CreateTokenExchangeRequest` (src/unnamed/part_005, lines 185-219). -/
def CreateTokenExchangeRequest (clientID clientSecret : String)
    (authMethod : AuthMethod) (input : TokenExchangeInput) : TokenRequest :=
  let params := setValue (setValue [] "subject_token" input.SubjectToken)
    "subject_token_type" input.SubjectTokenType
  let params :=
    if input.Resource ≠ "" then setValue params "resource" input.Resource
    else params
  let params :=
    if input.Audience ≠ "" then setValue params "audience" input.Audience
    else params
  let params :=
    if input.Scope ≠ "" then setValue params "scope" input.Scope else params
  let params :=
    if input.RequestedTokenType ≠ "" then
      setValue params "requested_token_type" input.RequestedTokenType
    else params
  let params :=
    if input.ActorToken ≠ "" then setValue params "actor_token" input.ActorToken
    else params
  let params :=
    if input.ActorTokenType ≠ "" then
      setValue params "actor_token_type" input.ActorTokenType
    else params
  { GrantType := "urn:ietf:params:oauth:grant-type:token-exchange"
    ClientID := clientID
    ClientSecret := clientSecret
    AuthMethod := authMethod
    Params := params }

/-! ### Device-code polling loop (`Client.ExecutePollingTokenRequest`)

The loop is embedded with explicit time: `t` is elapsed seconds,
`time.Sleep(interval * time.Second)` advances `t` by `interval`
unconditionally (Go's `time.Sleep` takes no context and cannot be
interrupted), and the caller's context is a cancellation instant
`cancelAt` that is only ever observed by `ExecuteTokenRequest` (which
receives `ctx`): once `cancelAt ≤ t` the transport returns the context's
cancellation error instead of consulting the server.  The server's
behaviour is a function from the attempt number to the transport outcome,
and `fuel` bounds the number of iterations we unfold (`none` = the Go
loop has not returned within `fuel` attempts). -/

/-- Outcome of one `ExecuteTokenRequest` call: a transport-level error
(`err != nil`) or an HTTP response. -/
inductive ExecOutcome where
  | err (e : String)
  | resp (r : Response)
  deriving DecidableEq

/-- The error text of Go's `context.Canceled`. -/
def ctxCanceled : String := "context canceled"

/-- What `ExecuteTokenRequest ctx` yields at attempt `attempt`, time `t`:
the context's cancellation error once `cancelAt ≤ t`, the scripted server
outcome otherwise. -/
def effectiveOutcome (server : Nat → ExecOutcome) (cancelAt t : Int)
    (attempt : Nat) : ExecOutcome :=
  if cancelAt ≤ t then ExecOutcome.err ctxCanceled else server attempt

/-- Final result of the polling loop, mirroring the returns of
`ExecutePollingTokenRequest`: the success response, or the error returned
to the caller (a transport error verbatim, `ErrParsingJSON`,
`ErrOAuthError` or `ErrHTTPFailure` with the built `Error` value). -/
inductive PollResult where
  | ok (r : Response)
  | transportErr (e : String)
  | parsingErr
  | oauthErr (e : Error)
  | httpFailure (e : Error)
  deriving DecidableEq

/-- One step-indexed unfolding of the `for` loop of
`ExecutePollingTokenRequest` (src/unnamed/part_005, lines 74-116).
Returns the loop's result, the list of slept intervals (in order), and
the time at which the loop returned. -/
def pollLoop (server : Nat → ExecOutcome) (cancelAt : Int) :
    Nat → Nat → Int → Int → Option (PollResult × List Int × Int)
  | 0, _, _, _ => none
  | fuel + 1, attempt, t, interval =>
    match effectiveOutcome server cancelAt t attempt with
    | ExecOutcome.err e => some (PollResult.transportErr e, [], t)
    | ExecOutcome.resp r =>
      if r.IsSuccess then some (PollResult.ok r, [], t)
      else
        match r.decoded with
        | none => some (PollResult.parsingErr, [], t)
        | some m =>
          match getString m "error" with
          | some errStr =>
            if errStr = "authorization_pending" then
              (pollLoop server cancelAt fuel (attempt + 1) (t + interval)
                  interval).map
                (fun x => (x.1, interval :: x.2.1, x.2.2))
            else if errStr = "slow_down" then
              (pollLoop server cancelAt fuel (attempt + 1) (t + (interval + 5))
                  (interval + 5)).map
                (fun x => (x.1, (interval + 5) :: x.2.1, x.2.2))
            else
              some (PollResult.oauthErr
                { statusCode := r.statusCode
                  rawBody := r.body
                  errorType := errStr
                  errorDescription := (getString m "error_description").getD "" },
                [], t)
          | none =>
            some (PollResult.httpFailure
              { statusCode := r.statusCode
                rawBody := r.body
                errorType := ""
                errorDescription := "" }, [], t)

/-- `Client.ExecutePollingTokenRequest` (src/unnamed/part_005, lines
69-117): default the interval to 5 when non-positive, then run the loop
from attempt 0 at time 0. -/
def ExecutePollingTokenRequest (server : Nat → ExecOutcome) (cancelAt : Int)
    (fuel : Nat) (interval : Int) : Option (PollResult × List Int × Int) :=
  pollLoop server cancelAt fuel 0 0 (if interval ≤ 0 then 5 else interval)

/-! ### Callback response validation (`DefaultResponseValidator`) -/

/-- `webflow.CallbackResponse`.  Modelled from the spec: the `webflow`
package is not under `src/`; spec section 3 gives its fields (code, state,
error code, error description), matching the uses `resp.Code`,
`resp.State`, `resp.ErrorMsg`, `resp.ErrorDescription` in
src/unnamed/part_008. -/
structure CallbackResponse where
  Code : String := ""
  State : String := ""
  ErrorMsg : String := ""
  ErrorDescription : String := ""
  deriving DecidableEq

/-- `httpclient.AuthorizationCodeRequest`
(src/httpclient/authorization_code.go, lines 12-26). -/
structure AuthorizationCodeRequest where
  ClientID : String := ""
  RedirectURI : String := ""
  Scope : String := ""
  State : String := ""
  Prompt : String := ""
  AcrValues : String := ""
  LoginHint : String := ""
  MaxAge : String := ""
  UILocales : String := ""
  CodeChallengeMethod : String := ""
  CodeChallenge : String := ""
  RequestURI : String := ""
  CustomArgs : Params := []
  deriving DecidableEq

/-- `httpclient.AuthorizationCodeResponse`
(src/httpclient/authorization_code.go, lines 28-31). -/
structure AuthorizationCodeResponse where
  Code : String
  State : String
  deriving DecidableEq

/-- Decidable equality for `Except`, used to evaluate the validator and
flow embeddings on concrete inputs. -/
instance exceptDecidableEq {ε α : Type} [DecidableEq ε] [DecidableEq α] :
    DecidableEq (Except ε α)
  | Except.error e, Except.error e' =>
    decidable_of_iff (e = e') (by simp)
  | Except.error _, Except.ok _ => isFalse (by intro hx; exact Except.noConfusion hx)
  | Except.ok _, Except.error _ => isFalse (by intro hx; exact Except.noConfusion hx)
  | Except.ok a, Except.ok b =>
    decidable_of_iff (a = b) (by simp)

/-- The distinct error returns of `DefaultResponseValidator.ValidateResponse`. -/
inductive ValidateError where
  | nilRequest
  | nilResponse
  | stateMismatch (expected got : String)
  | authorizationFailed (errMsg errDesc : String)
  deriving DecidableEq

/-- Embedding of `DefaultResponseValidator.ValidateResponse`
(src/unnamed/part_008, lines 17-45); Go `nil` pointers are `none`. -/
def ValidateResponse (req : Option AuthorizationCodeRequest)
    (resp : Option CallbackResponse) :
    Except ValidateError AuthorizationCodeResponse :=
  match req with
  | none => Except.error ValidateError.nilRequest
  | some req =>
    match resp with
    | none => Except.error ValidateError.nilResponse
    | some resp =>
      if req.State ≠ "" ∧ resp.State ≠ req.State then
        Except.error (ValidateError.stateMismatch req.State resp.State)
      else if resp.Code = "" then
        Except.error
          (ValidateError.authorizationFailed resp.ErrorMsg resp.ErrorDescription)
      else
        Except.ok
          { Code := resp.Code
            State := if req.State ≠ "" then req.State else "" }

/-! ### DPoP proof handling in the flow orchestrators -/

/-- The `crypto.NewDPoPProof` collaborator, as a function from the HTTP
method and target URL to either the proof string or an error message.
The public/private key pair it binds is configuration internal to the
collaborator and not part of the engine's contract. -/
abbrev DPoPGen := String → String → Except String String

/-- `setupDPoPHeaders` as written identically in `DeviceFlow` and
`TokenRefreshFlow` (src/oidc/device.go lines 23-38, src/oidc/token_refresh.go
lines 24-39).  Besides the produced header map, the embedding records the
list of `(method, url)` pairs for which a proof was requested. -/
def setupDPoPHeaders (gen : DPoPGen) (dpop : Bool) (tokenEndpoint : String) :
    Except String Params × List (String × String) :=
  if dpop then
    match gen "POST" tokenEndpoint with
    | Except.error e =>
      (Except.error ("failed to create DPoP proof: " ++ e),
       [("POST", tokenEndpoint)])
    | Except.ok proof =>
      (Except.ok [("DPoP", proof)], [("POST", tokenEndpoint)])
  else (Except.ok [], [])

/-- The header routing performed by `DeviceFlow.Run`: which header map
accompanies the device-authorization request and which one accompanies
each polling token-endpoint request. -/
structure DeviceFlowRequests where
  deviceAuthHeaders : Params
  tokenRequestHeaders : Params
  dpopCalls : List (String × String)
  deriving DecidableEq

/-- Header routing of `DeviceFlow.Run` (src/oidc/device.go, lines 40-104):
the headers built by `setupDPoPHeaders` are passed to
`ExecuteDeviceAuthorizationRequest` only; the polling token requests go
through `ExecutePollingTokenRequest`, which calls
`ExecuteTokenRequest(ctx, tokenEndpoint, req, nil)` (src/unnamed/part_005,
line 75), i.e. with an empty header map. -/
def DeviceFlowRunHeaders (gen : DPoPGen) (dpop : Bool)
    (tokenEndpoint : String) : Except String DeviceFlowRequests :=
  match setupDPoPHeaders gen dpop tokenEndpoint with
  | (Except.error e, _) => Except.error e
  | (Except.ok headers, calls) =>
    Except.ok
      { deviceAuthHeaders := headers
        tokenRequestHeaders := []
        dpopCalls := calls }

/-- Header routing of `TokenRefreshFlow.Run` (src/oidc/token_refresh.go,
lines 41-69): the headers built by `setupDPoPHeaders` are passed to
`ExecuteTokenRequest` against the token endpoint. -/
def TokenRefreshFlowRunHeaders (gen : DPoPGen) (dpop : Bool)
    (tokenEndpoint : String) :
    Except String (Params × List (String × String)) :=
  match setupDPoPHeaders gen dpop tokenEndpoint with
  | (Except.error e, _) => Except.error e
  | (Except.ok headers, calls) => Except.ok (headers, calls)

/-! ### Concrete fixtures used by witnesses and counterexamples -/

/-- A 200 response with a decodable JSON body. -/
def resp200 : Response :=
  { statusCode := 200
    body := "\x7b\"access_token\":\"abc\"\x7d"
    decoded := some [("access_token", JValue.str "abc")] }

/-- A 400 response whose body is `{"error":"invalid_grant"}`. -/
def resp400 : Response :=
  { statusCode := 400
    body := "\x7b\"error\":\"invalid_grant\"\x7d"
    decoded := some [("error", JValue.str "invalid_grant")] }

/-- A 500 response whose body is `{"message":"oops"}` (no `error` field). -/
def resp500 : Response :=
  { statusCode := 500
    body := "\x7b\"message\":\"oops\"\x7d"
    decoded := some [("message", JValue.str "oops")] }

/-- A response with an undecodable body. -/
def respBad : Response :=
  { statusCode := 502, body := "not json", decoded := none }

/-- A 400 `authorization_pending` polling response. -/
def respPending : Response :=
  { statusCode := 400
    body := "\x7b\"error\":\"authorization_pending\"\x7d"
    decoded := some [("error", JValue.str "authorization_pending")] }

/-- A 400 `slow_down` polling response. -/
def respSlowDown : Response :=
  { statusCode := 400
    body := "\x7b\"error\":\"slow_down\"\x7d"
    decoded := some [("error", JValue.str "slow_down")] }

/-- A successful (2xx) polling response. -/
def respOk : Response :=
  { statusCode := 200, body := "\x7b\x7d", decoded := some [] }

/-- A server that answers `authorization_pending` twice, then succeeds. -/
def serverPendingTwiceThenOk : Nat → ExecOutcome
  | 0 => ExecOutcome.resp respPending
  | 1 => ExecOutcome.resp respPending
  | _ => ExecOutcome.resp respOk

/-- A server that always answers `authorization_pending`. -/
def serverAlwaysPending : Nat → ExecOutcome
  | _ => ExecOutcome.resp respPending

/-- A DPoP collaborator that always returns the proof string `PROOF`. -/
def genOkProof : DPoPGen := fun _ _ => Except.ok "PROOF"

/-! ### Claim theorems -/

/-- Claim C2: classification of a token-endpoint response.  JSON-decoding
is attempted regardless of HTTP status and a decode failure yields the
JSON-parsing error independent of the status code; a 2xx status with a
decodable body yields `success` with the decoded mapping; a non-2xx
status whose decoded mapping has a string `error` field yields the OAuth
protocol error carrying that code, the optional `error_description`, the
HTTP status and the raw body; any other non-2xx decodable response
yields the HTTP failure carrying the status and raw body. -/
theorem claim_C2_token_response_classification (resp : Response) :
    (resp.decoded = none →
      ParseTokenResponse resp = TokenParseResult.parsingError) ∧
    (∀ m, resp.decoded = some m → resp.IsSuccess = true →
      ParseTokenResponse resp = TokenParseResult.success m) ∧
    (∀ m errStr, resp.decoded = some m → resp.IsSuccess = false →
      getString m "error" = some errStr →
      ParseTokenResponse resp = TokenParseResult.oauthError m
        { statusCode := resp.statusCode
          rawBody := resp.body
          errorType := errStr
          errorDescription := (getString m "error_description").getD "" }) ∧
    (∀ m, resp.decoded = some m → resp.IsSuccess = false →
      getString m "error" = none →
      ParseTokenResponse resp = TokenParseResult.httpFailure m
        { statusCode := resp.statusCode
          rawBody := resp.body
          errorType := ""
          errorDescription := "" }) := by
  refine ⟨fun h => ?_, fun m hm hs => ?_, fun m errStr hm hs he => ?_,
    fun m hm hs he => ?_⟩
  · simp [ParseTokenResponse, h]
  · simp [ParseTokenResponse, hm, hs]
  · simp [ParseTokenResponse, hm, hs, he]
  · simp [ParseTokenResponse, hm, hs, he]

/-- Witness for C2, instantiating the classifier at the four literal
status/body pairs of the spec's test matrix. -/
theorem claim_C2_witness :
    ParseTokenResponse resp200 =
      TokenParseResult.success [("access_token", JValue.str "abc")] ∧
    ParseTokenResponse resp400 =
      TokenParseResult.oauthError [("error", JValue.str "invalid_grant")]
        { statusCode := 400
          rawBody := "\x7b\"error\":\"invalid_grant\"\x7d"
          errorType := "invalid_grant"
          errorDescription := "" } ∧
    ParseTokenResponse resp500 =
      TokenParseResult.httpFailure [("message", JValue.str "oops")]
        { statusCode := 500
          rawBody := "\x7b\"message\":\"oops\"\x7d"
          errorType := ""
          errorDescription := "" } ∧
    ParseTokenResponse respBad = TokenParseResult.parsingError := by
  refine ⟨?_, ?_, ?_, ?_⟩
  · exact (claim_C2_token_response_classification resp200).2.1 _ rfl (by decide)
  · exact (claim_C2_token_response_classification resp400).2.2.1 _ _ rfl
      (by decide) (by decide)
  · exact (claim_C2_token_response_classification resp500).2.2.2 _ rfl
      (by decide) (by decide)
  · exact (claim_C2_token_response_classification respBad).1 rfl

/-- Claim C3 (code bug evidence): with proof generation succeeding and
DPoP enabled, `DeviceFlow.Run` attaches the proof — requested for `POST`
against the token endpoint — to the device-authorization request, while
every polling token-endpoint request is executed with an empty header map
carrying no `DPoP` header at all; `TokenRefreshFlow.Run` does attach it
to the token-endpoint request, and a failed generation aborts with the
wrapped error. -/
theorem claim_C3_device_flow_dpop_divergence :
    DeviceFlowRunHeaders genOkProof true "https://as/token" =
      Except.ok
        { deviceAuthHeaders := [("DPoP", "PROOF")]
          tokenRequestHeaders := []
          dpopCalls := [("POST", "https://as/token")] } ∧
    (DeviceFlowRunHeaders genOkProof true "https://as/token").toOption.map
      (fun x => getValue x.tokenRequestHeaders "DPoP") = some none ∧
    TokenRefreshFlowRunHeaders genOkProof true "https://as/token" =
      Except.ok ([("DPoP", "PROOF")], [("POST", "https://as/token")]) ∧
    DeviceFlowRunHeaders (fun _ _ => Except.error "boom") true "https://as/token" =
      Except.error "failed to create DPoP proof: boom" := by
  refine ⟨by decide, by decide, by decide, by decide⟩

/-- Claim C5: with a non-empty request state, validation succeeds only on
an exact state match and a mismatch yields the state-mismatch error; with
an empty request state no comparison is performed (the outcome does not
depend on the callback's state) and a successful response reports the
empty state. -/
theorem claim_C5_state_validation (req : AuthorizationCodeRequest)
    (resp : CallbackResponse) :
    (req.State ≠ "" → resp.State ≠ req.State →
      ValidateResponse (some req) (some resp) =
        Except.error (ValidateError.stateMismatch req.State resp.State)) ∧
    (req.State ≠ "" → ∀ out,
      ValidateResponse (some req) (some resp) = Except.ok out →
      resp.State = req.State) ∧
    (req.State = "" → ∀ s,
      ValidateResponse (some req) (some { resp with State := s }) =
        ValidateResponse (some req) (some resp)) ∧
    (req.State = "" → ∀ out,
      ValidateResponse (some req) (some resp) = Except.ok out →
      out.State = "") := by
  refine ⟨fun h1 h2 => ?_, fun h1 out hout => ?_, fun h s => ?_,
    fun h out hout => ?_⟩
  · simp [ValidateResponse, h1, h2]
  · by_cases hstate : resp.State = req.State
    · exact hstate
    · exfalso
      simp [ValidateResponse, h1, hstate] at hout
  · simp [ValidateResponse, h]
  · simp [ValidateResponse, h] at hout
    split at hout
    · exact absurd hout (by simp)
    · cases hout
      rfl

/-- Witness for C5: the spec's own test vectors — state `S1` against
request state `S1` succeeds echoing `S1`; against request state `S2` it
fails with a state mismatch; an empty request state accepts any callback
state and reports the empty state. -/
theorem claim_C5_witness :
    ValidateResponse (some { State := "S2" })
      (some { Code := "ABC", State := "S1" }) =
      Except.error (ValidateError.stateMismatch "S2" "S1") ∧
    ∀ out, ValidateResponse (some { State := "" })
      (some { Code := "ABC", State := "anything" }) = Except.ok out →
      out.State = "" := by
  constructor
  · exact (claim_C5_state_validation { State := "S2" }
      { Code := "ABC", State := "S1" }).1 (by decide) (by decide)
  · exact (claim_C5_state_validation { State := "" }
      { Code := "ABC", State := "anything" }).2.2.2 rfl

/-- Claim C10: the CSRF state check precedes the missing-code check — a
mismatching non-empty state yields the state-mismatch error even when the
code is also empty, and the missing-authorization-code error can only be
produced when the state check passed or was skipped. -/
theorem claim_C10_state_before_code (req : AuthorizationCodeRequest)
    (resp : CallbackResponse) :
    (req.State ≠ "" → resp.State ≠ req.State → resp.Code = "" →
      ValidateResponse (some req) (some resp) =
        Except.error (ValidateError.stateMismatch req.State resp.State)) ∧
    (∀ e d, ValidateResponse (some req) (some resp) =
        Except.error (ValidateError.authorizationFailed e d) →
      req.State = "" ∨ resp.State = req.State) := by
  constructor
  · intro h1 h2 _
    simp [ValidateResponse, h1, h2]
  · intro e d hout
    by_cases h1 : req.State = ""
    · exact Or.inl h1
    · by_cases h2 : resp.State = req.State
      · exact Or.inr h2
      · exfalso
        simp [ValidateResponse, h1, h2] at hout


/-- Witness for C10: with request state `S1`, a callback carrying state
`S2` and an empty code fails with the state mismatch, not with the
missing-code error. -/
theorem claim_C10_witness :
    ValidateResponse (some ({ State := "S1" } : AuthorizationCodeRequest))
      (some ({ Code := "", State := "S2", ErrorMsg := "access_denied" } :
        CallbackResponse)) =
      Except.error (ValidateError.stateMismatch "S1" "S2") :=
  (claim_C10_state_before_code { State := "S1" }
    { Code := "", State := "S2", ErrorMsg := "access_denied" }).1
    (by decide) (by decide) rfl

/-- Request fixture for the C6 counterexample: a non-empty state. -/
def reqStateS1 : AuthorizationCodeRequest := { State := "S1" }

/-- Callback fixture for the C6 counterexample: empty code, mismatching
state, provider error details present. -/
def respDeniedMismatch : CallbackResponse :=
  { Code := ""
    State := "S2"
    ErrorMsg := "access_denied"
    ErrorDescription := "denied by user" }

/-- Counterexample to C6 as stated: for this delivered callback with an
empty `code`, validation fails with the state-mismatch error, not with an
error surfacing the callback's `error`/`error_description` values. -/
theorem claim_C6_counterexample :
    ValidateResponse (some reqStateS1) (some respDeniedMismatch) =
      Except.error (ValidateError.stateMismatch "S1" "S2") ∧
    ValidateResponse (some reqStateS1) (some respDeniedMismatch) ≠
      Except.error (ValidateError.authorizationFailed
        respDeniedMismatch.ErrorMsg respDeniedMismatch.ErrorDescription) := by
  refine ⟨by decide, by decide⟩

/-- Claim C6 as amended: for every delivered callback whose `code` is
empty, no authorization-code response is produced; and whenever the state
check passes or is skipped (empty or matching request state), the attempt
fails with the error surfacing the callback's `error` and
`error_description` values (which may both be empty). -/
theorem claim_C6_amended_missing_code (req : AuthorizationCodeRequest)
    (resp : CallbackResponse) (hcode : resp.Code = "") :
    ((req.State = "" ∨ resp.State = req.State) →
      ValidateResponse (some req) (some resp) =
        Except.error (ValidateError.authorizationFailed
          resp.ErrorMsg resp.ErrorDescription)) ∧
    (∀ out, ValidateResponse (some req) (some resp) ≠ Except.ok out) := by
  constructor
  · intro hstate
    rcases hstate with h | h
    · simp [ValidateResponse, h, hcode]
    · simp [ValidateResponse, h, hcode]
  · intro out hout
    by_cases h1 : req.State ≠ "" ∧ resp.State ≠ req.State
    · simp [ValidateResponse, h1] at hout
    · simp [ValidateResponse, h1, hcode] at hout

/-- Witness for the amended C6: a callback with no code and
`error=access_denied` against a request without state fails surfacing
`access_denied`. -/
theorem claim_C6_witness :
    ValidateResponse (some ({ State := "" } : AuthorizationCodeRequest))
      (some ({ Code := "", ErrorMsg := "access_denied" } : CallbackResponse)) =
      Except.error (ValidateError.authorizationFailed "access_denied" "") :=
  (claim_C6_amended_missing_code { State := "" }
    { Code := "", ErrorMsg := "access_denied" } rfl).1 (Or.inl rfl)

/-- Claim C7: the auth-method strategy of `ExecuteTokenRequest` produces
exactly the documented header/parameter combination for each
`AuthMethod` value — `basic` sets the `Authorization` header to
`Basic base64(clientID:clientSecret)` and leaves the body parameters at
just the grant type; `post` sets `client_id` and adds `client_secret`
only when the secret is non-empty; `none` sets only `client_id` — and
whenever it changes the header set it adds no credential body
parameters. -/
theorem claim_C7_auth_method_strategy (req : TokenRequest) (headers : Params) :
    (ExecuteTokenRequest { req with AuthMethod := AuthMethod.basic } headers =
      (setValue req.Params "grant_type" req.GrantType,
       setValue headers "Authorization"
         ("Basic " ++ base64StdEncode (req.ClientID ++ ":" ++ req.ClientSecret)))) ∧
    (ExecuteTokenRequest { req with AuthMethod := AuthMethod.post } headers =
      ((if req.ClientSecret ≠ "" then
          setValue (setValue (setValue req.Params "grant_type" req.GrantType)
            "client_id" req.ClientID) "client_secret" req.ClientSecret
        else
          setValue (setValue req.Params "grant_type" req.GrantType)
            "client_id" req.ClientID),
       headers)) ∧
    (ExecuteTokenRequest { req with AuthMethod := AuthMethod.none } headers =
      (setValue (setValue req.Params "grant_type" req.GrantType)
        "client_id" req.ClientID,
       headers)) ∧
    (∀ am, (ExecuteTokenRequest { req with AuthMethod := am } headers).2 ≠ headers →
      (ExecuteTokenRequest { req with AuthMethod := am } headers).1 =
        setValue req.Params "grant_type" req.GrantType) := by
  refine ⟨rfl, ?_, rfl, ?_⟩
  · by_cases h : req.ClientSecret ≠ "" <;> simp [ExecuteTokenRequest, h]
  · intro am
    cases am with
    | basic => intro _; rfl
    | post => intro h; exact absurd rfl h
    | none => intro h; exact absurd rfl h

/-- Witness for C7: the basic strategy at a concrete request changed the
header set, and indeed left the parameters at just the grant type. -/
theorem claim_C7_witness :
    (ExecuteTokenRequest
      { GrantType := "refresh_token", ClientID := "id", ClientSecret := "sec",
        AuthMethod := AuthMethod.basic, Params := [] } []).1 =
      setValue [] "grant_type" "refresh_token" :=
  (claim_C7_auth_method_strategy
    { GrantType := "refresh_token", ClientID := "id", ClientSecret := "sec",
      AuthMethod := AuthMethod.basic, Params := [] } []).2.2.2
    AuthMethod.basic (by decide)

/-- Claim C8: for every grant-specific token-request builder and every
input, required parameters are always present, each optional parameter is
present exactly when the corresponding input string is non-empty, and the
grant type is the grant's registered identifier string. -/
theorem claim_C8_builders (clientID clientSecret : String) (am : AuthMethod)
    (code redirectURI codeVerifier refreshToken scope deviceCode : String)
    (input : TokenExchangeInput) :
    ((CreateAuthCodeTokenRequest clientID clientSecret am code redirectURI
        codeVerifier).GrantType = "authorization_code") ∧
    (getValue (CreateAuthCodeTokenRequest clientID clientSecret am code
        redirectURI codeVerifier).Params "code" = some code) ∧
    (getValue (CreateAuthCodeTokenRequest clientID clientSecret am code
        redirectURI codeVerifier).Params "redirect_uri" = some redirectURI) ∧
    (getValue (CreateAuthCodeTokenRequest clientID clientSecret am code
        redirectURI codeVerifier).Params "code_verifier" =
      (if codeVerifier = "" then none else some codeVerifier)) ∧
    ((CreateRefreshTokenRequest clientID clientSecret am refreshToken
        scope).GrantType = "refresh_token") ∧
    (getValue (CreateRefreshTokenRequest clientID clientSecret am refreshToken
        scope).Params "refresh_token" = some refreshToken) ∧
    (getValue (CreateRefreshTokenRequest clientID clientSecret am refreshToken
        scope).Params "scope" = (if scope = "" then none else some scope)) ∧
    ((CreateClientCredentialsRequest clientID clientSecret am
        scope).GrantType = "client_credentials") ∧
    (getValue (CreateClientCredentialsRequest clientID clientSecret am
        scope).Params "scope" = (if scope = "" then none else some scope)) ∧
    ((CreateDeviceCodeTokenRequest clientID clientSecret am
        deviceCode).GrantType = "urn:ietf:params:oauth:grant-type:device_code") ∧
    (getValue (CreateDeviceCodeTokenRequest clientID clientSecret am
        deviceCode).Params "device_code" = some deviceCode) ∧
    ((CreateTokenExchangeRequest clientID clientSecret am input).GrantType =
      "urn:ietf:params:oauth:grant-type:token-exchange") ∧
    (getValue (CreateTokenExchangeRequest clientID clientSecret am
        input).Params "subject_token" = some input.SubjectToken) ∧
    (getValue (CreateTokenExchangeRequest clientID clientSecret am
        input).Params "subject_token_type" = some input.SubjectTokenType) ∧
    (getValue (CreateTokenExchangeRequest clientID clientSecret am
        input).Params "resource" =
      (if input.Resource = "" then none else some input.Resource)) ∧
    (getValue (CreateTokenExchangeRequest clientID clientSecret am
        input).Params "audience" =
      (if input.Audience = "" then none else some input.Audience)) ∧
    (getValue (CreateTokenExchangeRequest clientID clientSecret am
        input).Params "scope" =
      (if input.Scope = "" then none else some input.Scope)) ∧
    (getValue (CreateTokenExchangeRequest clientID clientSecret am
        input).Params "requested_token_type" =
      (if input.RequestedTokenType = "" then none
       else some input.RequestedTokenType)) ∧
    (getValue (CreateTokenExchangeRequest clientID clientSecret am
        input).Params "actor_token" =
      (if input.ActorToken = "" then none else some input.ActorToken)) ∧
    (getValue (CreateTokenExchangeRequest clientID clientSecret am
        input).Params "actor_token_type" =
      (if input.ActorTokenType = "" then none else some input.ActorTokenType)) := by
  refine ⟨rfl, ?_, ?_, ?_, rfl, ?_, ?_, rfl, ?_, rfl, ?_, rfl, ?_, ?_, ?_, ?_,
    ?_, ?_, ?_, ?_⟩
  · by_cases h : codeVerifier = "" <;>
      simp [CreateAuthCodeTokenRequest, h, getValue_setValue_self,
        getValue_setValue_ne, getValue_nil]
  · by_cases h : codeVerifier = "" <;>
      simp [CreateAuthCodeTokenRequest, h, getValue_setValue_self,
        getValue_setValue_ne, getValue_nil]
  · by_cases h : codeVerifier = "" <;>
      simp [CreateAuthCodeTokenRequest, h, getValue_setValue_self,
        getValue_setValue_ne, getValue_nil]
  · by_cases h : scope = "" <;>
      simp [CreateRefreshTokenRequest, h, getValue_setValue_self,
        getValue_setValue_ne, getValue_nil]
  · by_cases h : scope = "" <;>
      simp [CreateRefreshTokenRequest, h, getValue_setValue_self,
        getValue_setValue_ne, getValue_nil]
  · by_cases h : scope = "" <;>
      simp [CreateClientCredentialsRequest, h, getValue_setValue_self,
        getValue_setValue_ne, getValue_nil]
  · simp [CreateDeviceCodeTokenRequest, getValue_setValue_self]
  all_goals
    by_cases h1 : input.Resource = "" <;> by_cases h2 : input.Audience = "" <;>
      by_cases h3 : input.Scope = "" <;>
      by_cases h4 : input.RequestedTokenType = "" <;>
      by_cases h5 : input.ActorToken = "" <;>
      by_cases h6 : input.ActorTokenType = "" <;>
      simp [CreateTokenExchangeRequest, h1, h2, h3, h4, h5, h6,
        getValue_setValue_self, getValue_setValue_ne, getValue_nil]

/-- Claim C1: each polling attempt's classified result drives the loop as
specified.  `authorization_pending` sleeps the current interval unchanged
and retries; `slow_down` increases the interval by exactly 5 before
sleeping and the larger interval is carried into the rest of the session;
any other OAuth protocol error, an HTTP failure, a JSON-parsing failure
or a transport error terminates the loop surfacing that error; a 2xx
success terminates the loop returning the response. -/
theorem claim_C1_polling_transitions (server : Nat → ExecOutcome)
    (cancelAt : Int) (fuel attempt : Nat) (t interval : Int) :
    (∀ r, effectiveOutcome server cancelAt t attempt = ExecOutcome.resp r →
      r.IsSuccess = true →
      pollLoop server cancelAt (fuel + 1) attempt t interval =
        some (PollResult.ok r, [], t)) ∧
    (∀ r m, effectiveOutcome server cancelAt t attempt = ExecOutcome.resp r →
      r.IsSuccess = false → r.decoded = some m →
      getString m "error" = some "authorization_pending" →
      pollLoop server cancelAt (fuel + 1) attempt t interval =
        (pollLoop server cancelAt fuel (attempt + 1) (t + interval)
            interval).map
          (fun x => (x.1, interval :: x.2.1, x.2.2))) ∧
    (∀ r m, effectiveOutcome server cancelAt t attempt = ExecOutcome.resp r →
      r.IsSuccess = false → r.decoded = some m →
      getString m "error" = some "slow_down" →
      pollLoop server cancelAt (fuel + 1) attempt t interval =
        (pollLoop server cancelAt fuel (attempt + 1) (t + (interval + 5))
            (interval + 5)).map
          (fun x => (x.1, (interval + 5) :: x.2.1, x.2.2))) ∧
    (∀ r m errStr,
      effectiveOutcome server cancelAt t attempt = ExecOutcome.resp r →
      r.IsSuccess = false → r.decoded = some m →
      getString m "error" = some errStr →
      errStr ≠ "authorization_pending" → errStr ≠ "slow_down" →
      pollLoop server cancelAt (fuel + 1) attempt t interval =
        some (PollResult.oauthErr
          { statusCode := r.statusCode
            rawBody := r.body
            errorType := errStr
            errorDescription := (getString m "error_description").getD "" },
          [], t)) ∧
    (∀ r m, effectiveOutcome server cancelAt t attempt = ExecOutcome.resp r →
      r.IsSuccess = false → r.decoded = some m →
      getString m "error" = none →
      pollLoop server cancelAt (fuel + 1) attempt t interval =
        some (PollResult.httpFailure
          { statusCode := r.statusCode
            rawBody := r.body
            errorType := ""
            errorDescription := "" }, [], t)) ∧
    (∀ r, effectiveOutcome server cancelAt t attempt = ExecOutcome.resp r →
      r.IsSuccess = false → r.decoded = none →
      pollLoop server cancelAt (fuel + 1) attempt t interval =
        some (PollResult.parsingErr, [], t)) ∧
    (∀ e, effectiveOutcome server cancelAt t attempt = ExecOutcome.err e →
      pollLoop server cancelAt (fuel + 1) attempt t interval =
        some (PollResult.transportErr e, [], t)) := by
  refine ⟨fun r ho hs => ?_, fun r m ho hs hm he => ?_,
    fun r m ho hs hm he => ?_, fun r m errStr ho hs hm he hne1 hne2 => ?_,
    fun r m ho hs hm he => ?_, fun r ho hs hm => ?_, fun e ho => ?_⟩ <;>
    simp [pollLoop, *]

/-- Witness for C1: the `slow_down` transition at a concrete state — the
interval is bumped from 5 to 10 before the sleep and carried on. -/
theorem claim_C1_witness :
    pollLoop (fun _ => ExecOutcome.resp respSlowDown) 1000 3 0 0 5 =
      (pollLoop (fun _ => ExecOutcome.resp respSlowDown) 1000 2 1 10 10).map
        (fun x => (x.1, (10 : Int) :: x.2.1, x.2.2)) := by
  have h := (claim_C1_polling_transitions
    (fun _ => ExecOutcome.resp respSlowDown) 1000 2 0 0 5).2.2.1
    respSlowDown [("error", JValue.str "slow_down")]
    (by decide) (by decide) (by decide) (by decide)
  simpa using h

/-- Helper for C9: every interval slept by the loop is at least the
interval the loop was entered with, and the slept intervals are sorted
non-decreasingly. -/
theorem pollLoop_sleeps_chain (server : Nat → ExecOutcome) (cancelAt : Int) :
    ∀ (fuel attempt : Nat) (t interval : Int) (res : PollResult)
      (sleeps : List Int) (tEnd : Int),
      pollLoop server cancelAt fuel attempt t interval =
        some (res, sleeps, tEnd) →
      List.Chain' (· ≤ ·) sleeps ∧ ∀ s ∈ sleeps, interval ≤ s := by
  intro fuel
  induction fuel with
  | zero =>
    intro attempt t interval res sleeps tEnd h
    simp [pollLoop] at h
  | succ n ih =>
    intro attempt t interval res sleeps tEnd h
    rw [pollLoop] at h
    split at h
    · cases h
      simp
    · split at h
      · cases h
        simp
      · split at h
        · cases h
          simp
        · split at h
          · split at h
            · rcases Option.map_eq_some'.mp h with ⟨⟨res', sleeps', tEnd'⟩, hrec, hx⟩
              cases hx
              rcases ih _ _ _ _ _ _ hrec with ⟨hchain, hbound⟩
              refine ⟨List.chain'_cons'.mpr ⟨?_, hchain⟩, ?_⟩
              · intro y hy
                exact hbound y (List.mem_of_mem_head? hy)
              · intro s hs
                rcases List.mem_cons.mp hs with h' | h'
                · exact le_of_eq h'.symm
                · exact hbound s h'
            · split at h
              · rcases Option.map_eq_some'.mp h with ⟨⟨res', sleeps', tEnd'⟩, hrec, hx⟩
                cases hx
                rcases ih _ _ _ _ _ _ hrec with ⟨hchain, hbound⟩
                refine ⟨List.chain'_cons'.mpr ⟨?_, hchain⟩, ?_⟩
                · intro y hy
                  exact hbound y (List.mem_of_mem_head? hy)
                · intro s hs
                  rcases List.mem_cons.mp hs with h' | h'
                  · omega
                  · have := hbound s h'
                    omega
              · cases h
                simp
          · cases h
            simp

/-- Claim C9: across one polling session the interval used for waiting
starts at the device-authorization response's interval — replaced by 5
seconds when zero or negative — and the sequence of slept intervals is
monotonically non-decreasing, each wait being at least the (defaulted)
initial interval. -/
theorem claim_C9_interval_monotone (server : Nat → ExecOutcome)
    (cancelAt : Int) (fuel : Nat) (interval : Int) (res : PollResult)
    (sleeps : List Int) (tEnd : Int)
    (h : ExecutePollingTokenRequest server cancelAt fuel interval =
      some (res, sleeps, tEnd)) :
    List.Chain' (· ≤ ·) sleeps ∧
    ∀ s ∈ sleeps, (if interval ≤ 0 then 5 else interval) ≤ s :=
  pollLoop_sleeps_chain server cancelAt fuel 0 0
    (if interval ≤ 0 then 5 else interval) res sleeps tEnd h

/-- Witness for C9: a session configured with interval `-3` (defaulted to
5) that sees `authorization_pending` twice and then succeeds sleeps 5 and
then 5, a non-decreasing sequence bounded below by the default. -/
theorem claim_C9_witness :
    List.Chain' (· ≤ ·) [(5 : Int), 5] ∧
    ∀ s ∈ [(5 : Int), 5], (if (-3 : Int) ≤ 0 then 5 else (-3 : Int)) ≤ s :=
  claim_C9_interval_monotone serverPendingTwiceThenOk 1000 5 (-3)
    (PollResult.ok respOk) [5, 5] 10 (by decide)

/-- Counterexample to C4 as stated: with a context cancelled at time 1,
during the sleep spanning times 0 to 5 after a first
`authorization_pending` answer, the loop is not interrupted: it completes
the full 5-second sleep and only aborts at the next attempt, at time 5,
later than the cancellation instant 1. -/
theorem claim_C4_counterexample :
    ExecutePollingTokenRequest serverAlwaysPending 1 3 5 =
      some (PollResult.transportErr ctxCanceled, [5], 5) ∧
    (1 : Int) < 5 := by
  refine ⟨by decide, by decide⟩

/-- Claim C4 as amended: cancellation does not interrupt an in-progress
inter-attempt sleep.  A cancellation observed at an attempt makes that
attempt return the context's cancellation error immediately, surfaced as
a transport error and never converted into a fatal OAuth/HTTP business
error; and a cancellation that fires strictly during a sleep takes effect
only once the full sleep has elapsed, at the next attempt. -/
theorem claim_C4_amended_sleep_not_interruptible (server : Nat → ExecOutcome)
    (cancelAt : Int) (fuel attempt : Nat) (t interval : Int) (r : Response)
    (m : JsonObj) :
    (cancelAt ≤ t →
      pollLoop server cancelAt (fuel + 1) attempt t interval =
        some (PollResult.transportErr ctxCanceled, [], t)) ∧
    (¬ cancelAt ≤ t → server attempt = ExecOutcome.resp r →
      r.IsSuccess = false → r.decoded = some m →
      getString m "error" = some "authorization_pending" →
      cancelAt ≤ t + interval →
      pollLoop server cancelAt (fuel + 1 + 1) attempt t interval =
        some (PollResult.transportErr ctxCanceled, [interval], t + interval)) := by
  constructor
  · intro hc
    simp [pollLoop, effectiveOutcome, hc]
  · intro hc hserver hs hm he hc2
    have h1 : pollLoop server cancelAt (fuel + 1 + 1) attempt t interval =
        (pollLoop server cancelAt (fuel + 1) (attempt + 1) (t + interval)
            interval).map
          (fun x => (x.1, interval :: x.2.1, x.2.2)) := by
      simp [pollLoop, effectiveOutcome, hc, hserver, hs, hm, he]
    have h2 : pollLoop server cancelAt (fuel + 1) (attempt + 1) (t + interval)
        interval = some (PollResult.transportErr ctxCanceled, [], t + interval) := by
      simp [pollLoop, effectiveOutcome, hc2]
    rw [h1, h2]
    rfl

/-- Witness for the amended C4: the concrete cancelled session of the
counterexample, reached through the general theorem. -/
theorem claim_C4_witness :
    pollLoop serverAlwaysPending 1 3 0 0 5 =
      some (PollResult.transportErr ctxCanceled, [5], 5) :=
  (claim_C4_amended_sleep_not_interruptible serverAlwaysPending 1 1 0 0 5
    respPending [("error", JValue.str "authorization_pending")]).2
    (by decide) (by decide) (by decide) (by decide) (by decide) (by decide)

end OidcCli
